import Mathlib

/-!
Verification of gpustat-web (`src/app.py`): a shallow embedding of the
multi-host polling engine, the shared ordered status table, and the renderer,
with theorems checking the natural-language specification against the code.

Modelling conventions:
* Python's `collections.OrderedDict[str, str]` is an association list
  (`List (String × String)`), with `d[k] = v` as `odSet` (replace in place
  when the key exists, append otherwise), matching dict semantics.
* ANSI colouring by `termcolor.colored(text, color)` (termcolor 1.1 colour
  table, no attrs) is the literal escape-code wrapping the library performs.
* Floats (`interval`, `timeout`) are modelled as exact rationals `ℚ`;
  numeric-to-string formatting follows Lean's `toString` (Python would print
  `30.0` where Lean prints `30`; no claim depends on float formatting).
* The asyncio poll loop of `run_client` is modelled as a step function on the
  observable outcome of one execution attempt (`PollEvent`), recording the
  status-table update, whether `render_webpage` was invoked, whether the SSH
  session stays open (the `async with` block is exited exactly when an
  exception escapes the inner `while True`), and what the outer retry loop
  does next.
-/

/-- Colour table of `termcolor` (the 2018-2020 release line used by the
repository): the numeric SGR code for each colour name used in `app.py`. -/
def colorCode : String → String
  | "grey" => "30"
  | "red" => "31"
  | "green" => "32"
  | "yellow" => "33"
  | "blue" => "34"
  | "magenta" => "35"
  | "cyan" => "36"
  | "white" => "37"
  | _ => "39"

/-- Models `termcolor.colored(text, color)` with no attributes: the text is
wrapped as `\x1b[<code>m<text>\x1b[0m`. -/
def colored (text : String) (color : String) : String :=
  "\x1b[" ++ colorCode color ++ "m" ++ text ++ "\x1b[0m"

/-- Models `(s or '').split('\n')[0]` from `run_client._loop_body`
(src/app.py line 129): the first line of a string. -/
def firstLine (s : String) : String :=
  (s.splitOn "\n").headD ""

/-- Concatenation of a list of strings, used to state in which order the
renderer emits the host status texts. -/
def strConcat : List String → String
  | [] => ""
  | s :: rest => s ++ strConcat rest

/-- Keys of an association list, in iteration (insertion) order, modelling
`OrderedDict` iteration. -/
def odKeys (d : List (String × String)) : List String :=
  d.map Prod.fst

/-- Lookup in an association list, modelling `d[k]` reads. -/
def odLookup : List (String × String) → String → Option String
  | [], _ => none
  | (k, v) :: rest, k' => if k' = k then some v else odLookup rest k'

/-- Models the Python dict assignment `d[k] = v` on an `OrderedDict`: an
existing key keeps its position and gets the new value; a new key is
appended at the end. -/
def odSet : List (String × String) → String → String → List (String × String)
  | [], k, v => [(k, v)]
  | (k', v') :: rest, k, v =>
      if k' = k then (k', v) :: rest else (k', v') :: odSet rest k v

/-- Models the global `Context` object (src/app.py lines 38-48): the ordered
host-status table and the poll interval. -/
structure Context where
  host_status : List (String × String)
  interval : ℚ
  deriving DecidableEq

/-- Models `context = Context()` (src/app.py line 48): `Context.__init__`
creates an empty `OrderedDict` and interval `5.0`. -/
def Context.init : Context :=
  { host_status := [], interval := 5 }

/-- Status line written by `Context.host_set_message` (src/app.py line 45):
`colored(f"({hostname}) ", 'white') + msg + '\n'`. -/
def statusLine (hostname msg : String) : String :=
  colored ("(" ++ hostname ++ ") ") "white" ++ msg ++ "\n"

/-- Models `Context.host_set_message` (src/app.py lines 44-45). -/
def Context.host_set_message (ctx : Context) (hostname msg : String) : Context :=
  { ctx with host_status := odSet ctx.host_status hostname (statusLine hostname msg) }

/-- The placeholder entry written for each host before the pollers are
launched (src/app.py line 67): `host_set_message(hostname, "Loading ...")`. -/
def placeholderText (hostname : String) : String :=
  statusLine hostname "Loading ..."

/-- Models the body-accumulation loop of `render_webpage` (src/app.py lines
88-92): iterate the table in order, skipping falsy (empty) statuses, and
concatenate the rest. -/
def render_body (hs : List (String × String)) : String :=
  hs.foldl (fun body p => if p.2 = "" then body else body ++ p.2) ""

/-- Models `render_webpage` (src/app.py lines 85-103). The ANSI-to-HTML
converter (`ansi_conv.convert` with its fixed state), the Jinja template and
the produced headers are external collaborators, taken as abstract function
parameters. The first component is the artifact written to the output file;
the second is the context after the call, which `render_webpage` only reads,
never mutates. -/
def render_webpage (conv : String → String) (template : String → String → String)
    (headers : String) (ctx : Context) : String × Context :=
  (template headers (conv (render_body ctx.host_status)), ctx)

/-- Observable outcome of one execution attempt in `run_client` (src/app.py
lines 114-163): either `conn.run` completed with an exit status, stdout and
stderr, or one of the exception classes handled by the outer `try` fired. -/
inductive PollEvent where
  | completed (exit_status : Int) (stdout : String) (stderr : Option String)
  | timeoutError
  | disconnectError (msg : String)
  | cancelled
  | unclassified (ename emsg : String)
  deriving DecidableEq

/-- Whether the SSH session (the `async with asyncssh.connect(...)` block of
`_loop_body`) remains open after the step. -/
inductive SessionDisposition where
  | kept
  | torn
  deriving DecidableEq

/-- What the poller does after the step: continue the inner `while True` on
the same connection, fall to the outer retry loop (sleep `poll_delay`,
reconnect), stop because of cancellation, or re-raise a fatal exception. -/
inductive PollerControl where
  | continueInner
  | retryReconnect
  | stopCancelled
  | raiseFatal
  deriving DecidableEq

/-- Result of one observable step of `run_client`. -/
structure StepResult where
  ctx : Context
  rendered : Bool
  session : SessionDisposition
  control : PollerControl
  deriving DecidableEq

/-- Message written on timeout (src/app.py line 153):
`f"Timeout after {timeout} sec"`. -/
def timeoutMessage (timeout : ℚ) : String :=
  "Timeout after " ++ toString timeout ++ " sec"

/-- One-line error summary written on a non-zero exit status (src/app.py
line 130): `f'[exitcode {result.exit_status}] {stderr_summary}'` where
`stderr_summary` is the first line of `result.stderr or ''`. -/
def failureSummary (exit_status : Int) (stderr : Option String) : String :=
  "[exitcode " ++ toString exit_status ++ "] " ++ firstLine (stderr.getD "")

/-- Models one observable step of `run_client` (src/app.py lines 114-167),
branching on the outcome of one execution attempt:
* `completed st out err`, `st ≠ 0`: `host_set_message` with the red failure
  summary, `render_webpage()`, session stays open, inner loop continues
  (lines 126-130, 137-140);
* `completed 0 out err`: `context.host_status[hostname] = result.stdout`,
  `render_webpage()`, session stays open, inner loop continues
  (lines 131-140);
* `timeoutError`: the `asyncio.TimeoutError` escapes `_loop_body`, closing
  the `async with` session; the handler writes the red timeout message and
  the outer loop sleeps `poll_delay` and reconnects (lines 150-153, 165-167);
* `disconnectError msg` (`DisconnectError`/`ChannelOpenError`/`OSError`,
  during connect or execute): session closed, red error message written,
  outer loop sleeps and reconnects (lines 154-157, 165-167);
* `cancelled`: session closed, `break` exits the poller (lines 147-149);
* `unclassified ename emsg`: session closed, message written, exception
  re-raised to the caller (lines 158-163). -/
def run_client_step (ctx : Context) (hostname : String) (timeout : ℚ)
    (ev : PollEvent) : StepResult :=
  match ev with
  | .completed exit_status stdout stderr =>
      if exit_status ≠ 0 then
        { ctx := ctx.host_set_message hostname
            (colored (failureSummary exit_status stderr) "red"),
          rendered := true, session := .kept, control := .continueInner }
      else
        { ctx := { ctx with host_status := odSet ctx.host_status hostname stdout },
          rendered := true, session := .kept, control := .continueInner }
  | .timeoutError =>
      { ctx := ctx.host_set_message hostname (colored (timeoutMessage timeout) "red"),
        rendered := false, session := .torn, control := .retryReconnect }
  | .disconnectError msg =>
      { ctx := ctx.host_set_message hostname (colored msg "red"),
        rendered := false, session := .torn, control := .retryReconnect }
  | .cancelled =>
      { ctx := ctx, rendered := false, session := .torn, control := .stopCancelled }
  | .unclassified ename emsg =>
      { ctx := ctx.host_set_message hostname (colored (ename ++ ": " ++ emsg) "red"),
        rendered := false, session := .torn, control := .raiseFatal }

/-- Models the resolution of `poll_delay` in `run_client` (src/app.py lines
111-112) and the delay slept before a reconnect attempt (line 167): the
`poll_delay` argument if given, else `context.interval`. -/
def reconnect_delay (poll_delay : Option ℚ) (ctx : Context) : ℚ :=
  poll_delay.getD ctx.interval

/-- Python `str.partition(sep)` for a single-character separator, on
character lists: (part before the first occurrence, whether the separator
occurs, part after it). -/
def pyPartition : List Char → Char → List Char × Bool × List Char
  | [], _ => ([], false, [])
  | x :: xs, c =>
      if x = c then ([], true, xs)
      else
        let r := pyPartition xs c
        (x :: r.1, r.2.1, r.2.2)

/-- Python `s.rpartition('@')[2]`: everything after the last `'@'`, or the
whole string when there is none. -/
def afterLastAt (s : List Char) : List Char :=
  (s.reverse.takeWhile (fun c => c ≠ '@')).reverse

/-- The netloc of `urlparse('ssh://' + netloc + '/')`: the characters of the
argument before the first URL delimiter `'/'`, `'?'` or `'#'` (the appended
`'/'` terminates the netloc in any case). Control characters, which newer
CPython strips from URLs, are not modelled; the configuration strings are
plain `HOSTNAME[:PORT]` netlocs. -/
def netlocOf (s : List Char) : List Char :=
  s.takeWhile (fun c => c ≠ '/' ∧ c ≠ '?' ∧ c ≠ '#')

/-- CPython `urllib.parse` `_hostinfo` on a netloc: drop the userinfo up to
the last `'@'`; a bracketed `[...]` host is the part inside the brackets with
the port after `']:'`, otherwise split at the first `':'`; an empty port
string becomes `None`. Returns (hostname part, raw port string or none). -/
def pyHostinfo (netloc : List Char) : List Char × Option (List Char) :=
  let hostinfo := afterLastAt netloc
  let br := pyPartition hostinfo '['
  let hp :=
    if br.2.1 then
      let h := pyPartition br.2.2 ']'
      (h.1, (pyPartition h.2.2 ':').2.2)
    else
      let h := pyPartition hostinfo ':'
      (h.1, h.2.2)
  (hp.1, if hp.2 = [] then none else some hp.2)

/-- CPython's `hostname` property on the raw host part: `None` when empty,
otherwise the part before any `'%'` zone separator lowercased with the zone
kept verbatim. -/
def pyHostname (h : List Char) : Option (List Char) :=
  if h = [] then none
  else
    let z := pyPartition h '%'
    some (z.1.map Char.toLower ++ (if z.2.1 then '%' :: z.2.2 else []))

/-- Port-string-to-integer conversion used by CPython's `port` property: the
value of a non-empty all-digit string (Python's `int()` also tolerates
surrounding whitespace, a sign and underscores; such port strings do not
occur in the documented `HOSTNAME[:PORT]` form and are not modelled —
they are treated as the `ValueError` case). -/
def pyIntDigits (s : List Char) : Option Nat :=
  if s ≠ [] ∧ s.all Char.isDigit then
    some (s.foldl (fun n c => 10 * n + (c.toNat - 48)) 0)
  else none

/-- CPython's `port` property on the raw port string: the integer value when
it parses and lies in `0..65535`; `none` models the `ValueError` raised
otherwise. -/
def pyParsePort (s : List Char) : Option Nat :=
  match pyIntDigits s with
  | none => none
  | some n => if n ≤ 65535 then some n else none

/-- Models `_parse_host_string` (src/app.py lines 55-60):
`urlparse('ssh://{netloc}/')`, the `assert pr.hostname is not None`, and the
returned `(pr.hostname, pr.port)`. `none` models an escaping exception (the
failed assertion, or the `ValueError` from an invalid port). -/
def _parse_host_string (netloc : String) : Option (String × Option Nat) :=
  let nl := netlocOf netloc.data
  let hi := pyHostinfo nl
  match pyHostname hi.1 with
  | none => none
  | some hn =>
      match hi.2 with
      | none => some (⟨hn⟩, none)
      | some ps =>
          match pyParsePort ps with
          | none => none
          | some n => some (⟨hn⟩, some n)

/-- Models the Python expression `port or default_port` used when launching
`run_client` (src/app.py line 73): `None` and the falsy port `0` both fall
back to the default. -/
def port_or_default (port : Option Nat) (default_port : Nat) : Nat :=
  match port with
  | none => default_port
  | some n => if n = 0 then default_port else n

/-- The placeholder-initialisation loop of `spawn_clients` (src/app.py lines
66-67): `host_set_message(hostname, "Loading ...")` for each parsed hostname
in configuration order. -/
def init_placeholders (host_names : List String) (ctx : Context) : Context :=
  host_names.foldl (fun c h => c.host_set_message h "Loading ...") ctx

/-- Parses of all configured host strings, as consumed by the
`zip(*(_parse_host_string(host) for host in hosts))` of `spawn_clients`
(src/app.py line 63): the whole list when every parse succeeds, `none` when
any parse raises (every parse is consumed before any placeholder is
written; `zip` of an empty argument list raises `ValueError` at the
unpacking, the `hosts = []` case of `spawn_clients_init`). -/
def parseAllHosts : List String → Option (List (String × Option Nat))
  | [] => some []
  | h :: rest =>
      match _parse_host_string h, parseAllHosts rest with
      | some y, some ys => some (y :: ys)
      | _, _ => none

/-- Models the setup part of `spawn_clients` (src/app.py lines 62-67) up to
the launch of the pollers: parse every host string, then write the
placeholder entries in configuration order; `none` models an exception
escaping to the `except Exception` handler. -/
def spawn_clients_init (ctx : Context) (hosts : List String) : Option Context :=
  if hosts = [] then none
  else
    match parseAllHosts hosts with
    | none => none
    | some parsed => some (init_placeholders (parsed.map Prod.fst) ctx)

/-- Outcome of `asyncio.gather` over the `run_client` pollers as observed by
`spawn_clients` (src/app.py lines 72-76): all pollers returned, or one of
them re-raised an unclassified exception (an `Exception` subclass). -/
inductive GatherOutcome where
  | completedAll
  | raisedFrom (ename : String)
  deriving DecidableEq

/-- Models the `try`/`except Exception` of `spawn_clients` (src/app.py lines
62-82): whether an exception escapes `spawn_clients` itself. The handler
catches the exception, prints a traceback and an error banner, and the
coroutine then returns normally — so nothing ever escapes. -/
def spawn_clients_raises (g : GatherOutcome) : Bool :=
  match g with
  | .completedAll => false
  | .raisedFrom _ => false

/-- Models the process exit code of `main` (src/app.py lines 170-196):
`main` returns normally (exit code 0) unless an exception escapes
`asyncio.run(spawn_clients(...))`. -/
def main_exit_code (g : GatherOutcome) : Nat :=
  if spawn_clients_raises g then 1 else 0

/-- Models the interval-floor check of `main` (src/app.py lines 189-190):
`if args.interval > 0.1: context.interval = args.interval`; otherwise the
interval keeps its previous value (`5.0` from `Context.__init__`). -/
def main_set_interval (ctx : Context) (args_interval : ℚ) : Context :=
  if args_interval > 1 / 10 then { ctx with interval := args_interval } else ctx

/-! Helper lemmas about the ordered table and the setup loop. -/

theorem odLookup_set_self (d : List (String × String)) (k v : String) :
    odLookup (odSet d k v) k = some v := by
  induction d with
  | nil => simp [odSet, odLookup]
  | cons p rest ih =>
      obtain ⟨k', v'⟩ := p
      by_cases h : k' = k
      · simp [odSet, odLookup, h]
      · simp [odSet, odLookup, h, Ne.symm h, ih]

theorem odLookup_set_ne (d : List (String × String)) (k v k' : String) (h : k' ≠ k) :
    odLookup (odSet d k v) k' = odLookup d k' := by
  induction d with
  | nil => simp [odSet, odLookup, h]
  | cons p rest ih =>
      obtain ⟨k₀, v₀⟩ := p
      by_cases hk : k₀ = k
      · subst hk
        simp [odSet, odLookup, h]
      · simp [odSet, odLookup, hk, ih]

theorem odKeys_set (d : List (String × String)) (k v : String) :
    odKeys (odSet d k v) = if k ∈ odKeys d then odKeys d else odKeys d ++ [k] := by
  induction d with
  | nil => simp [odSet, odKeys]
  | cons p rest ih =>
      obtain ⟨k₀, v₀⟩ := p
      by_cases hk : k₀ = k
      · subst hk
        simp [odSet, odKeys]
      · have h1 : odSet ((k₀, v₀) :: rest) k v = (k₀, v₀) :: odSet rest k v := by
          simp [odSet, hk]
        have h2 : odKeys ((k₀, v₀) :: odSet rest k v) = k₀ :: odKeys (odSet rest k v) := rfl
        have h3 : odKeys ((k₀, v₀) :: rest) = k₀ :: odKeys rest := rfl
        rw [h1, h2, h3, ih]
        by_cases hm : k ∈ odKeys rest
        · rw [if_pos hm, if_pos (List.mem_cons_of_mem _ hm)]
        · rw [if_neg hm, if_neg (by simp [Ne.symm hk, hm])]
          rfl

theorem mem_odKeys_set (d : List (String × String)) (k v k' : String)
    (h : k' ∈ odKeys d) : k' ∈ odKeys (odSet d k v) := by
  rw [odKeys_set]
  by_cases hm : k ∈ odKeys d
  · simpa [hm] using h
  · simp [hm]
    exact Or.inl h

theorem init_placeholders_nil (ctx : Context) : init_placeholders [] ctx = ctx := rfl

theorem init_placeholders_cons (n : String) (rest : List String) (ctx : Context) :
    init_placeholders (n :: rest) ctx
      = init_placeholders rest (ctx.host_set_message n "Loading ...") := rfl

theorem lookup_init_placeholders_of_not_mem (names : List String) (ctx : Context)
    (n : String) (h : n ∉ names) :
    odLookup (init_placeholders names ctx).host_status n = odLookup ctx.host_status n := by
  induction names generalizing ctx with
  | nil => rfl
  | cons m rest ih =>
      have hnm : n ≠ m := fun he => h (he ▸ List.mem_cons_self m rest)
      have hr : n ∉ rest := fun hr => h (List.mem_cons_of_mem m hr)
      rw [init_placeholders_cons, ih _ hr, Context.host_set_message]
      exact odLookup_set_ne _ _ _ _ hnm

theorem lookup_init_placeholders (names : List String) (ctx : Context) (n : String)
    (h : n ∈ names) :
    odLookup (init_placeholders names ctx).host_status n = some (placeholderText n) := by
  induction names generalizing ctx with
  | nil => cases h
  | cons m rest ih =>
      rw [init_placeholders_cons]
      by_cases hr : n ∈ rest
      · exact ih _ hr
      · have hnm : n = m := by
          rcases List.mem_cons.mp h with h1 | h2
          · exact h1
          · exact absurd h2 hr
        subst hnm
        rw [lookup_init_placeholders_of_not_mem _ _ _ hr, Context.host_set_message]
        exact odLookup_set_self _ _ _

theorem odKeys_init_placeholders (names : List String) (ctx : Context)
    (hnd : names.Nodup) (hfresh : ∀ n ∈ names, n ∉ odKeys ctx.host_status) :
    odKeys (init_placeholders names ctx).host_status = odKeys ctx.host_status ++ names := by
  induction names generalizing ctx with
  | nil => simp [init_placeholders_nil]
  | cons m rest ih =>
      rw [init_placeholders_cons]
      have hm : m ∉ odKeys ctx.host_status := hfresh m (List.mem_cons_self m rest)
      have hkeys : odKeys (ctx.host_set_message m "Loading ...").host_status
          = odKeys ctx.host_status ++ [m] := by
        rw [Context.host_set_message]
        simp [odKeys_set, hm]
      rw [ih (ctx.host_set_message m "Loading ...") (List.Nodup.of_cons hnd)]
      · rw [hkeys, List.append_assoc]
        rfl
      · intro n hn
        rw [hkeys]
        have h1 : n ∉ odKeys ctx.host_status := hfresh n (List.mem_cons_of_mem m hn)
        have h2 : n ≠ m := by
          intro he
          subst he
          exact (List.nodup_cons.mp hnd).1 hn
        simp [h1, h2]

theorem parseAllHosts_mem (hosts : List String) (parsed : List (String × Option Nat))
    (hm : parseAllHosts hosts = some parsed) (s : String) (hs : s ∈ hosts) :
    ∃ y, _parse_host_string s = some y ∧ y ∈ parsed := by
  induction hosts generalizing parsed with
  | nil => cases hs
  | cons h rest ih =>
      unfold parseAllHosts at hm
      cases hph : _parse_host_string h with
      | none => rw [hph] at hm; cases hm
      | some y =>
          rw [hph] at hm
          cases hpr : parseAllHosts rest with
          | none => rw [hpr] at hm; cases hm
          | some ys =>
              rw [hpr] at hm
              simp only [Option.some.injEq] at hm
              subst hm
              rcases List.mem_cons.mp hs with h1 | h2
              · subst h1
                exact ⟨y, hph, List.mem_cons_self y ys⟩
              · obtain ⟨z, hz1, hz2⟩ := ih ys hpr h2
                exact ⟨z, hz1, List.mem_cons_of_mem y hz2⟩

theorem statusLine_ne_empty (h m : String) : statusLine h m ≠ "" := by
  intro he
  have hl := congrArg String.length he
  rw [statusLine, String.length_append] at hl
  have h1 : ("\n" : String).length = 1 := rfl
  have h2 : ("" : String).length = 0 := rfl
  omega

theorem placeholderText_names_host (hn : String) :
    ∃ a b, placeholderText hn = a ++ hn ++ b := by
  refine ⟨"\x1b[" ++ colorCode "white" ++ "m" ++ "(",
    ") " ++ "\x1b[0m" ++ "Loading ..." ++ "\n", ?_⟩
  rw [placeholderText, statusLine, colored]
  simp only [String.append_assoc]

theorem render_body_strConcat (d : List (String × String)) :
    render_body d = strConcat ((d.filter (fun p => p.2 ≠ "")).map Prod.snd) := by
  have key : ∀ acc : String,
      d.foldl (fun body p => if p.2 = "" then body else body ++ p.2) acc
        = acc ++ strConcat ((d.filter (fun p => p.2 ≠ "")).map Prod.snd) := by
    induction d with
    | nil => intro acc; simp [strConcat]
    | cons p rest ih =>
        intro acc
        by_cases hp : p.2 = ""
        · simp [List.foldl_cons, hp, List.filter_cons, ih]
        · simp [List.foldl_cons, hp, List.filter_cons, ih, strConcat,
            String.append_assoc]
  have := key ""
  rw [render_body, this, String.empty_append]

/-! Claim theorems. -/

/-- C1: a poll cycle completing with a non-zero exit status (CommandFailure)
never closes the active session: the host's status entry is overwritten with
the failure summary and the inner polling loop continues on the same
connection, while a timeout or a channel-level failure does tear the session
down. -/
theorem commandFailure_keeps_session (ctx : Context) (hostname : String)
    (timeout : ℚ) (st : Int) (out : String) (err : Option String) (hst : st ≠ 0) :
    (run_client_step ctx hostname timeout (.completed st out err)).session
        = SessionDisposition.kept
    ∧ (run_client_step ctx hostname timeout (.completed st out err)).control
        = PollerControl.continueInner
    ∧ odLookup
        (run_client_step ctx hostname timeout (.completed st out err)).ctx.host_status
        hostname
        = some (statusLine hostname (colored (failureSummary st err) "red"))
    ∧ (run_client_step ctx hostname timeout PollEvent.timeoutError).session
        = SessionDisposition.torn
    ∧ ∀ m, (run_client_step ctx hostname timeout (.disconnectError m)).session
        = SessionDisposition.torn := by
  refine ⟨?_, ?_, ?_, rfl, fun m => rfl⟩ <;>
    simp [run_client_step, hst, Context.host_set_message, odLookup_set_self]

/-- Witness for C1 at a concrete failing poll (exit code 1). -/
theorem commandFailure_keeps_session_witness :
    (run_client_step Context.init "gpu1" 30 (.completed 1 "" (some "err"))).session
      = SessionDisposition.kept :=
  (commandFailure_keeps_session Context.init "gpu1" 30 1 "" (some "err") (by decide)).1

/-- C2: a TimeoutError or a channel/transport error (DisconnectError,
ChannelOpenError, OSError) during connect or execute always tears the
session down, overwrites the host's status entry with the corresponding
error message, and sends the poller back to a reconnect attempt after the
configured delay (`poll_delay`, which defaults to `context.interval`); the
poller does not terminate. -/
theorem transport_error_teardown_and_retry (ctx : Context) (hostname : String)
    (timeout : ℚ) :
    (run_client_step ctx hostname timeout PollEvent.timeoutError).session
        = SessionDisposition.torn
    ∧ (run_client_step ctx hostname timeout PollEvent.timeoutError).control
        = PollerControl.retryReconnect
    ∧ odLookup
        (run_client_step ctx hostname timeout PollEvent.timeoutError).ctx.host_status
        hostname
        = some (statusLine hostname (colored (timeoutMessage timeout) "red"))
    ∧ (∀ m, (run_client_step ctx hostname timeout (.disconnectError m)).session
          = SessionDisposition.torn
        ∧ (run_client_step ctx hostname timeout (.disconnectError m)).control
          = PollerControl.retryReconnect
        ∧ odLookup
            (run_client_step ctx hostname timeout (.disconnectError m)).ctx.host_status
            hostname
          = some (statusLine hostname (colored m "red")))
    ∧ reconnect_delay none ctx = ctx.interval := by
  refine ⟨rfl, rfl, ?_, fun m => ⟨rfl, rfl, ?_⟩, rfl⟩ <;>
    simp [run_client_step, Context.host_set_message, odLookup_set_self]

/-- C3: the code does NOT satisfy this claim as a whole. An unclassified
exception is indeed re-raised out of the poller (fail-fast inside
`run_client`, src/app.py line 163), but `spawn_clients` catches it with a
blanket `except Exception` (line 77, marked `TODO: throw the exception
outside`), prints a banner and returns normally, so `main` completes and
the process exits with code 0 instead of a non-zero code. -/
theorem unclassified_error_fatal_yet_exit_zero :
    (run_client_step Context.init "gpu1" 30
        (.unclassified "ValueError" "boom")).control = PollerControl.raiseFatal
    ∧ spawn_clients_raises (.raisedFrom "ValueError") = false
    ∧ main_exit_code (.raisedFrom "ValueError") = 0 :=
  ⟨rfl, rfl, rfl⟩

/-- C5: a successful poll overwrites the host's entry with the command's
stdout and triggers a render; a poll ending in CommandFailure (non-zero
exit) overwrites the entry with the one-line summary built from the exit
code and the first line of stderr, and also triggers a render. -/
theorem poll_cycle_updates_status_and_renders (ctx : Context) (hostname : String)
    (timeout : ℚ) (out : String) (err : Option String) (st : Int) (hst : st ≠ 0) :
    (odLookup
        (run_client_step ctx hostname timeout (.completed 0 out err)).ctx.host_status
        hostname = some out
      ∧ (run_client_step ctx hostname timeout (.completed 0 out err)).rendered = true)
    ∧ (odLookup
        (run_client_step ctx hostname timeout (.completed st out err)).ctx.host_status
        hostname
        = some (statusLine hostname (colored (failureSummary st err) "red"))
      ∧ (run_client_step ctx hostname timeout (.completed st out err)).rendered
          = true) := by
  refine ⟨⟨?_, rfl⟩, ⟨?_, ?_⟩⟩ <;>
    simp [run_client_step, hst, Context.host_set_message, odLookup_set_self]

/-- Witness for C5 at a concrete success and a concrete failure (exit code 2,
stderr of two lines). -/
theorem poll_cycle_updates_status_and_renders_witness :
    odLookup (run_client_step Context.init "gpu1" 30
        (.completed 0 "GPUOUT" (some "boom\nextra"))).ctx.host_status "gpu1"
      = some "GPUOUT"
    ∧ odLookup (run_client_step Context.init "gpu1" 30
        (.completed 2 "GPUOUT" (some "boom\nextra"))).ctx.host_status "gpu1"
      = some (statusLine "gpu1" (colored (failureSummary 2 (some "boom\nextra")) "red")) :=
  ⟨(poll_cycle_updates_status_and_renders Context.init "gpu1" 30 "GPUOUT"
      (some "boom\nextra") 2 (by decide)).1.1,
   (poll_cycle_updates_status_and_renders Context.init "gpu1" 30 "GPUOUT"
      (some "boom\nextra") 2 (by decide)).2.1⟩

/-- C7: rendering is idempotent: for a fixed snapshot of the status table and
fixed conversion/template collaborators, rendering does not mutate the
context, so a second render right after the first produces a byte-identical
artifact. -/
theorem render_idempotent (conv : String → String)
    (template : String → String → String) (headers : String) (ctx : Context) :
    (render_webpage conv template headers
        ((render_webpage conv template headers ctx).2)).1
      = (render_webpage conv template headers ctx).1 := rfl

/-- C8: the poll interval has an enforced floor: whatever interval is
configured, the effective `context.interval` used by the pollers stays above
`0.1`; a configured value at or below `0.1` is discarded and the default `5`
is used instead. -/
theorem interval_floor_enforced (v : ℚ) :
    (main_set_interval Context.init v).interval > 1 / 10
    ∧ (v ≤ 1 / 10 → (main_set_interval Context.init v).interval = 5
        ∧ (main_set_interval Context.init v).interval ≠ v)
    ∧ reconnect_delay none (main_set_interval Context.init v)
        = (main_set_interval Context.init v).interval := by
  by_cases h : v > 1 / 10
  · have he : main_set_interval Context.init v
        = { host_status := Context.init.host_status, interval := v } := by
      rw [main_set_interval, if_pos h]
    refine ⟨?_, fun hle => absurd h (not_lt.mpr hle), rfl⟩
    rw [he]
    exact h
  · have he : main_set_interval Context.init v = Context.init := by
      rw [main_set_interval, if_neg h]
    refine ⟨?_, fun hle => ⟨by rw [he]; rfl, ?_⟩, rfl⟩
    · rw [he]
      show (1 / 10 : ℚ) < 5
      norm_num
    · rw [he]
      show (5 : ℚ) ≠ v
      intro hev
      rw [← hev] at hle
      norm_num at hle

/-- Witness for C8: a configured interval of 1/20 (= 0.05, below the floor)
is rejected and the default 5 is kept. -/
theorem interval_floor_enforced_witness :
    (main_set_interval Context.init (1 / 20)).interval = 5 :=
  ((interval_floor_enforced (1 / 20)).2.1 (by norm_num)).1

theorem pyPartition_not_found (s : List Char) (c : Char)
    (h : (pyPartition s c).2.1 = false) : (pyPartition s c).1 = s := by
  induction s with
  | nil => rfl
  | cons x xs ih =>
      by_cases hx : x = c
      · simp [pyPartition, hx] at h
      · simp only [pyPartition, hx, if_false] at h ⊢
        simp at h ⊢
        exact ih h

theorem pyHostname_ne_nil (h : List Char) (l : List Char)
    (hh : pyHostname h = some l) : l ≠ [] := by
  rw [pyHostname] at hh
  by_cases h0 : h = []
  · simp [h0] at hh
  · rw [if_neg h0] at hh
    simp only [Option.some.injEq] at hh
    subst hh
    by_cases hz : (pyPartition h '%').2.1
    · simp [hz]
    · have hb : (pyPartition h '%').1 = h :=
        pyPartition_not_found h '%' (by simpa using hz)
      simp [hz, hb, h0]

theorem string_mk_ne_empty (l : List Char) (hl : l ≠ []) : (⟨l⟩ : String) ≠ "" := by
  intro he
  exact hl (congrArg String.data he)

/-- C4: after the supervisor's startup initialisation (`spawn_clients` up to
the launch of the pollers) and before any poll completes, every configured
host string has been parsed and the shared status table holds, under the
parsed hostname, a non-empty placeholder message that names the host. -/
theorem placeholder_initialized_before_polls (ctx c : Context) (hosts : List String)
    (hc : spawn_clients_init ctx hosts = some c) (s : String) (hs : s ∈ hosts) :
    ∃ hn p, _parse_host_string s = some (hn, p)
      ∧ odLookup c.host_status hn = some (placeholderText hn)
      ∧ placeholderText hn ≠ ""
      ∧ ∃ a b, placeholderText hn = a ++ hn ++ b := by
  rw [spawn_clients_init] at hc
  by_cases h0 : hosts = []
  · subst h0
    exact absurd hs (List.not_mem_nil s)
  · rw [if_neg h0] at hc
    cases hm : parseAllHosts hosts with
    | none => rw [hm] at hc; cases hc
    | some parsed =>
        rw [hm] at hc
        simp only [Option.some.injEq] at hc
        obtain ⟨y, hy1, hy2⟩ := parseAllHosts_mem hosts parsed hm s hs
        refine ⟨y.1, y.2, by rw [hy1], ?_, statusLine_ne_empty _ _,
          placeholderText_names_host _⟩
        subst hc
        exact lookup_init_placeholders _ _ _ (List.mem_map_of_mem Prod.fst hy2)

/-- Witness for C4 on the one-host configuration `["gpu1"]`. -/
theorem placeholder_initialized_before_polls_witness :
    ∃ hn p, _parse_host_string "gpu1" = some (hn, p)
      ∧ odLookup (Context.host_set_message Context.init "gpu1" "Loading ...").host_status hn
          = some (placeholderText hn)
      ∧ placeholderText hn ≠ ""
      ∧ ∃ a b, placeholderText hn = a ++ hn ++ b :=
  placeholder_initialized_before_polls Context.init
    (Context.host_set_message Context.init "gpu1" "Loading ...") ["gpu1"]
    (by decide) "gpu1" (List.mem_singleton.mpr rfl)

/-- C6: the status table is an ordered mapping in configuration order: after
placeholder initialisation over distinct hostnames the key order is exactly
the configuration order; any overwrite of an existing key preserves the key
list (hence the order); no key is ever removed by an update; and rendering
concatenates the host texts following exactly the table's key order. -/
theorem status_table_order_invariants (names : List String) (hnd : names.Nodup)
    (d : List (String × String)) (k v : String) (hk : k ∈ odKeys d) :
    odKeys (init_placeholders names Context.init).host_status = names
    ∧ odKeys (odSet d k v) = odKeys d
    ∧ (∀ k', k' ∈ odKeys d → k' ∈ odKeys (odSet d k v))
    ∧ render_body d = strConcat ((d.filter (fun p => p.2 ≠ "")).map Prod.snd) := by
  refine ⟨?_, ?_, fun k' hk' => mem_odKeys_set d k v k' hk', render_body_strConcat d⟩
  · have hfresh : ∀ n ∈ names, n ∉ odKeys Context.init.host_status := by
      intro n hn
      exact List.not_mem_nil n
    have := odKeys_init_placeholders names Context.init hnd hfresh
    simpa [Context.init, odKeys] using this
  · rw [odKeys_set, if_pos hk]

/-- Witness for C6: two distinct hosts, then an overwrite of key "a". -/
theorem status_table_order_invariants_witness :
    odKeys (init_placeholders ["a", "b"] Context.init).host_status = ["a", "b"]
    ∧ odKeys (odSet [("a", "x")] "a" "y") = odKeys [("a", "x")]
    ∧ "a" ∈ odKeys (odSet [("a", "x")] "a" "y")
    ∧ render_body [("a", "x")]
        = strConcat (([("a", "x")].filter (fun p => p.2 ≠ "")).map Prod.snd) :=
  ⟨(status_table_order_invariants ["a", "b"] (by decide) [("a", "x")] "a" "y"
      (by decide)).1,
   (status_table_order_invariants ["a", "b"] (by decide) [("a", "x")] "a" "y"
      (by decide)).2.1,
   (status_table_order_invariants ["a", "b"] (by decide) [("a", "x")] "a" "y"
      (by decide)).2.2.1 "a" (by decide),
   (status_table_order_invariants ["a", "b"] (by decide) [("a", "x")] "a" "y"
      (by decide)).2.2.2⟩

/-- C9: whenever `_parse_host_string` returns (models: the assertion and the
port range check passed), the hostname is non-empty; an unspecified port
makes the poller launch with the configured default port, and a specified
port in range 1..65535 is used as given by `port or default_port`. -/
theorem parse_host_string_correct (s hn : String) (p : Option Nat) (d : Nat)
    (hp : _parse_host_string s = some (hn, p)) :
    hn ≠ ""
    ∧ (p = none → port_or_default p d = d)
    ∧ (∀ n, p = some n → 1 ≤ n → port_or_default p d = n) := by
  refine ⟨?_, ?_, ?_⟩
  · simp only [_parse_host_string] at hp
    cases hh : pyHostname (pyHostinfo (netlocOf s.data)).1 with
    | none => simp [hh] at hp
    | some l =>
        have hl : l ≠ [] := pyHostname_ne_nil _ _ hh
        cases hi2 : (pyHostinfo (netlocOf s.data)).2 with
        | none =>
            simp only [hh, hi2, Option.some.injEq, Prod.mk.injEq] at hp
            rw [← hp.1]
            exact string_mk_ne_empty l hl
        | some ps =>
            cases hpp : pyParsePort ps with
            | none => simp [hh, hi2, hpp] at hp
            | some n =>
                simp only [hh, hi2, hpp, Option.some.injEq, Prod.mk.injEq] at hp
                rw [← hp.1]
                exact string_mk_ne_empty l hl
  · intro h
    subst h
    rfl
  · intro n h h1
    subst h
    have hn0 : n ≠ 0 := by omega
    simp [port_or_default, hn0]

/-- Witness for C9 on `"gpu1:2200"`: non-empty hostname, and the explicit
port 2200 is the one used. -/
theorem parse_host_string_correct_witness :
    ("gpu1" : String) ≠ "" ∧ port_or_default (some 2200) 22 = 2200 :=
  ⟨(parse_host_string_correct "gpu1:2200" "gpu1" (some 2200) 22 (by decide)).1,
   (parse_host_string_correct "gpu1:2200" "gpu1" (some 2200) 22 (by decide)).2.2
      2200 rfl (by norm_num)⟩

/-- C10: the status table is keyed by hostname alone. When two configured
host strings parse to the same hostname (differing only in port), the
initialised table has one single entry for that hostname; every write —
placeholder, error message (`host_set_message`) or success stdout
(`odSet`) — targets that same single entry, and the rendered body consists
of that one entry's text only. -/
theorem duplicate_hostname_single_entry (s1 s2 hn : String) (p1 p2 : Option Nat)
    (h1 : _parse_host_string s1 = some (hn, p1))
    (h2 : _parse_host_string s2 = some (hn, p2))
    (c : Context) (hc : spawn_clients_init Context.init [s1, s2] = some c) :
    c.host_status = [(hn, placeholderText hn)]
    ∧ (∀ msg, (c.host_set_message hn msg).host_status = [(hn, statusLine hn msg)])
    ∧ (∀ out, odSet c.host_status hn out = [(hn, out)])
    ∧ render_body c.host_status = placeholderText hn := by
  have hpa : parseAllHosts [s1, s2] = some [(hn, p1), (hn, p2)] := by
    simp only [parseAllHosts, h1, h2]
  rw [spawn_clients_init, if_neg (by simp), hpa] at hc
  simp only [Option.some.injEq] at hc
  have hst : c.host_status = [(hn, placeholderText hn)] := by
    rw [← hc]
    simp [init_placeholders, Context.host_set_message, odSet, placeholderText]
  have hne : placeholderText hn ≠ "" := statusLine_ne_empty hn "Loading ..."
  refine ⟨hst, ?_, ?_, ?_⟩
  · intro msg
    rw [Context.host_set_message]
    simp [hst, odSet]
  · intro out
    simp [hst, odSet]
  · rw [hst, render_body]
    simp [hne]

/-- Witness for C10: `"gpu1:22"` and `"gpu1:2200"` share hostname `gpu1`;
the table has the single entry, an error write hits it, and the render body
is that entry. -/
theorem duplicate_hostname_single_entry_witness :
    (Context.mk [("gpu1", placeholderText "gpu1")] 5).host_status
        = [("gpu1", placeholderText "gpu1")]
    ∧ ((Context.mk [("gpu1", placeholderText "gpu1")] 5).host_set_message
          "gpu1" "down").host_status = [("gpu1", statusLine "gpu1" "down")]
    ∧ render_body (Context.mk [("gpu1", placeholderText "gpu1")] 5).host_status
        = placeholderText "gpu1" :=
  ⟨(duplicate_hostname_single_entry "gpu1:22" "gpu1:2200" "gpu1" (some 22)
      (some 2200) (by decide) (by decide)
      (Context.mk [("gpu1", placeholderText "gpu1")] 5) (by decide)).1,
   (duplicate_hostname_single_entry "gpu1:22" "gpu1:2200" "gpu1" (some 22)
      (some 2200) (by decide) (by decide)
      (Context.mk [("gpu1", placeholderText "gpu1")] 5) (by decide)).2.1 "down",
   (duplicate_hostname_single_entry "gpu1:22" "gpu1:2200" "gpu1" (some 22)
      (some 2200) (by decide) (by decide)
      (Context.mk [("gpu1", placeholderText "gpu1")] 5) (by decide)).2.2.2⟩
